import Mathlib

/-!
Shallow embedding of `src/optics_calc_app.py`, a mode-switched optics
formula calculator.  Python floats are modelled as real numbers; a call to
`st.error` is modelled as `Except.error` carrying the message string and a
call to `st.success` as `Except.ok` carrying the value that the success
message formats.  Exceptions a Python expression can raise (the `KeyError`
of a dict lookup) are likewise modelled as `Except.error`.
-/

namespace OpticsCalc

/-- Speed of light in vacuum, `C0` at line 9 of the source. -/
def C0 : ℝ := 299792458

/-- Error message at line 79 (repetition rate must be positive). -/
def repRateMsg : String := "重复频率必须大于 0。"

/-- Error message at lines 298 and 340 (line density must be positive). -/
def densityMsg : String := "线密度必须 > 0。"

/-- Error message at line 303 (no real solution for the diffraction angle). -/
def noRealMsg : String := "无实数解：该级次在此入射角/光栅常数下不满足 |sinθ_m|≤1。"

/-- Error message at line 322 (denominator close to zero). -/
def denomMsg : String := "sinθ_i + sinθ_m 过小，无法求解（分母接近 0）。"

/-- Error message at line 326 (non-physical spacing d ≤ 0). -/
def nonPhysMsg : String := "计算得到 d ≤ 0，通常意味着角度/级次符号约定不一致。请检查输入。"

/-- The message standing for the Python `KeyError` raised by a failed dict
lookup. -/
def keyErrMsg : String := "KeyError"

/-- The `scale` dict of `to_si` (lines 15-24): maps a unit symbol to its
multiplicative SI scale factor, `none` for a symbol absent from the table. -/
noncomputable def scaleOf : String → Option ℝ
  | "W" => some 1
  | "mW" => some 1e-3
  | "kW" => some 1e3
  | "Hz" => some 1
  | "kHz" => some 1e3
  | "MHz" => some 1e6
  | "GHz" => some 1e9
  | "J" => some 1
  | "mJ" => some 1e-3
  | "uJ" => some 1e-6
  | "nJ" => some 1e-9
  | "s" => some 1
  | "ms" => some 1e-3
  | "us" => some 1e-6
  | "ns" => some 1e-9
  | "ps" => some 1e-12
  | "fs" => some 1e-15
  | "m" => some 1
  | "mm" => some 1e-3
  | "um" => some 1e-6
  | "nm" => some 1e-9
  | "deg" => some (Real.pi / 180)
  | "rad" => some 1
  | "cm2" => some 1e-4
  | "mm2" => some 1e-6
  | "um2" => some 1e-12
  | "m2" => some 1
  | "lines/mm" => some 1e3
  | "lines/m" => some 1
  | _ => none

/-- The function `to_si(value, unit)` (lines 14-25): `value * scale[unit]`,
where an unknown unit raises `KeyError`. -/
noncomputable def to_si (value : ℝ) (unit : String) : Except String ℝ :=
  match scaleOf unit with
  | some s => .ok (value * s)
  | none => .error keyErrMsg

/-- A Python numeric value as passed to `format_eng`: an integer, a finite
float (modelled by its real value), or one of the special floats. -/
inductive PyNum where
  | pint (n : ℤ)
  | pfloat (x : ℝ)
  | pnan
  | pinf
  | pninf

/-- The output of `format_eng`, keeping the number unrendered:
`raw v u` stands for the early-return string `f"{v} {u}"` of line 29, and
`eng s p u` for the string `f"{s:.4g} {p}{u}"` of line 34, i.e. the scaled
value rendered at 4 significant digits, then the SI prefix, then the unit. -/
inductive EngOut where
  | raw (v : PyNum) (unit : String)
  | eng (scaled : ℝ) (pfx : String) (unit : String)

/-- Rendering of the early-return branch `f"{x} {unit}"` for the inputs whose
Python string form is exact (integers and the special floats); the decimal
form of a general finite float is not modelled. -/
def renderRaw : EngOut → Option String
  | .raw (.pint n) u => some (toString n ++ " " ++ u)
  | .raw .pnan u => some ("nan " ++ u)
  | .raw .pinf u => some ("inf " ++ u)
  | .raw .pninf u => some ("-inf " ++ u)
  | _ => none

/-- The prefix dict of line 33, a lookup that raises `KeyError` (modelled by
`none`) on an exponent absent from the ten keys. -/
def prefixLookup : ℤ → Option String
  | -15 => some "f"
  | -12 => some "p"
  | -9 => some "n"
  | -6 => some "µ"
  | -3 => some "m"
  | 0 => some ""
  | 3 => some "k"
  | 6 => some "M"
  | 9 => some "G"
  | 12 => some "T"
  | _ => none

/-- The exponent of line 30: `int(np.floor(np.log10(abs(x)) / 3) * 3)`. -/
noncomputable def rawExp (x : ℝ) : ℤ := ⌊Real.logb 10 |x| / 3⌋ * 3

/-- The clamp of line 31: `max(min(exp, 12), -15)`. -/
def clampExp (e : ℤ) : ℤ := max (min e 12) (-15)

/-- The generic branch of `format_eng` (lines 30-34) on a nonzero finite
value `x`. -/
noncomputable def engFinite (x : ℝ) (unit : String) : Except String EngOut :=
  let e := clampExp (rawExp x)
  match prefixLookup e with
  | some p => .ok (.eng (x / (10 : ℝ) ^ e) p unit)
  | none => .error keyErrMsg

open Classical in
/-- The function `format_eng(x, unit)` (lines 27-34).  The test of line 28 is
`x == 0 or np.isnan(x) or np.isinf(x)`; `np.isnan` and `np.isinf` are false
on every integer and finite float. -/
noncomputable def format_eng (v : PyNum) (unit : String) : Except String EngOut :=
  match v with
  | .pnan => .ok (.raw v unit)
  | .pinf => .ok (.raw v unit)
  | .pninf => .ok (.raw v unit)
  | .pint n => if n = 0 then .ok (.raw v unit) else engFinite (n : ℝ) unit
  | .pfloat x => if x = 0 then .ok (.raw v unit) else engFinite x unit

/-- The pulse-energy mode body (lines 78-82), on the SI-converted average
power `P` and repetition rate `f`. -/
noncomputable def pulseEnergy (P f : ℝ) : Except String ℝ :=
  if f ≤ 0 then .error repRateMsg else .ok (P / f)

/-- The grating solve-for-θ_m branch (lines 296-309), on the SI-converted
wavelength `lam`, incidence angle `thetaI` (rad), integer order `m` and line
density `N` (lines per meter); the returned diffraction angle is in radians
(its display conversion to degrees at line 307 is presentation). -/
noncomputable def gratingSolveThetaM (lam thetaI : ℝ) (m : ℤ) (N : ℝ) :
    Except String ℝ :=
  if N ≤ 0 then .error densityMsg
  else
    let d := 1 / N
    let rhs := (m : ℝ) * lam / d - Real.sin thetaI
    if rhs < -1 ∨ 1 < rhs then .error noRealMsg
    else .ok (Real.arcsin rhs)

/-- The grating solve-for-N branch (lines 319-332): `outMM` selects the
lines/mm output unit of line 329. -/
noncomputable def gratingSolveN (lam thetaI thetaM : ℝ) (m : ℤ)
    (outMM : Bool) : Except String ℝ :=
  let denom := Real.sin thetaI + Real.sin thetaM
  if |denom| < 1e-15 then .error denomMsg
  else
    let d := (m : ℝ) * lam / denom
    if d ≤ 0 then .error nonPhysMsg
    else
      let N := 1 / d
      .ok (if outMM then N / 1e3 else N)

/-- The grating max-order branch (lines 338-346):
`mmax = int(np.floor(d * (1.0 + abs(np.sin(theta_i))) / lam)) if lam > 0 else 0`,
reported by `st.success`. -/
noncomputable def gratingMaxOrder (lam thetaI N : ℝ) : Except String ℤ :=
  if N ≤ 0 then .error densityMsg
  else
    let d := 1 / N
    .ok (if 0 < lam then ⌊d * (1 + |Real.sin thetaI|) / lam⌋ else 0)

/-- The unit symbols offered by the app's unit select boxes, across all nine
modes (lines 70, 73, 109, 160, 197, 200, 278, 281, 292, 380, 446, 462 among
others); the output-unit choices that bypass `to_si` (lines 294, 317, 382)
are not included. -/
def appUnitOptions : List String :=
  ["W", "mW", "kW", "Hz", "kHz", "MHz", "GHz", "J", "mJ", "uJ", "nJ",
   "s", "ms", "us", "ns", "ps", "fs", "nm", "um", "mm", "m",
   "deg", "rad", "lines/mm", "lines/m"]

/-- The delay-to-length branch (lines 450-456): `dub` is the double-pass
(reflective round-trip) geometry choice. -/
noncomputable def delayToLength (n dt : ℝ) (dub : Bool) : ℝ :=
  if dub then C0 * dt / (2 * n) else C0 * dt / n

/-- The length-to-delay branch (lines 466-472). -/
noncomputable def lengthToDelay (n dL : ℝ) (dub : Bool) : ℝ :=
  if dub then 2 * n * dL / C0 else n * dL / C0

/-- The SI prefix the spec associates to each clamped exponent
(f, p, n, µ, m, empty, k, M, G, T), written as a total function following the
spec's words, to be compared with the dict lookup of the source. -/
def siPrefixFor (e : ℤ) : String :=
  if e = -15 then "f"
  else if e = -12 then "p"
  else if e = -9 then "n"
  else if e = -6 then "µ"
  else if e = -3 then "m"
  else if e = 3 then "k"
  else if e = 6 then "M"
  else if e = 9 then "G"
  else if e = 12 then "T"
  else ""

/-- Every scale factor in the `to_si` table is strictly positive. -/
theorem scaleOf_pos (u : String) (s : ℝ) (h : scaleOf u = some s) : 0 < s := by
  unfold scaleOf at h
  split at h
  all_goals cases h
  all_goals positivity

/-- C7: for every value `v` and every unit `U` in the table,
`to_si(v, U) = v * scale[U]`, the scale factors include the exact constants
of the spec, `to_si(1, U) = scale[U]`, and dividing `to_si(v, U)` by
`scale[U]` returns `v`. -/
theorem to_si_table_exact :
    scaleOf "mW" = some 1e-3 ∧ scaleOf "MHz" = some 1e6 ∧
    scaleOf "deg" = some (Real.pi / 180) ∧ scaleOf "lines/mm" = some 1e3 ∧
    ∀ u s, scaleOf u = some s →
      (∀ v, to_si v u = Except.ok (v * s)) ∧
      to_si 1 u = Except.ok s ∧
      ∀ v, v * s / s = v := by
  refine ⟨by simp [scaleOf], by simp [scaleOf], by simp [scaleOf],
    by simp [scaleOf], fun u s h => ⟨fun v => by simp [to_si, h], ?_, fun v => ?_⟩⟩
  · simp [to_si, h]
  · exact mul_div_cancel_right₀ v (ne_of_gt (scaleOf_pos u s h))

/-- Witness for C7 at `v = 5`, `U = "mW"`. -/
theorem to_si_table_exact_witness :
    to_si 5 "mW" = Except.ok (5 * 1e-3) ∧ (5 : ℝ) * 1e-3 / 1e-3 = 5 := by
  have h := to_si_table_exact.2.2.2.2 "mW" 1e-3 (by simp [scaleOf])
  exact ⟨h.1 5, h.2.2 5⟩

/-- C6: for a unit symbol absent from the scale table, `to_si` fails with the
(`KeyError`) unknown-unit error; and every unit the app's select boxes can
pass to `to_si` is present in the table, so the evaluation of a mode never
hits that error. -/
theorem to_si_unknown_unit :
    (∀ (v : ℝ) (u : String), scaleOf u = none →
      to_si v u = Except.error keyErrMsg) ∧
    ∀ u ∈ appUnitOptions, ∀ v : ℝ, ∃ w, to_si v u = Except.ok w := by
  refine ⟨fun v u h => by simp [to_si, h], fun u hu v => ?_⟩
  obtain ⟨s, hs⟩ : ∃ s, scaleOf u = some s := by
    fin_cases hu <;> exact ⟨_, rfl⟩
  exact ⟨v * s, by simp [to_si, hs]⟩

/-- Witness for C6 at the unknown symbol `"furlong"` and the known symbol
`"nm"`. -/
theorem to_si_unknown_unit_witness :
    to_si 3 "furlong" = Except.error keyErrMsg ∧
    ∃ w, to_si 3 "nm" = Except.ok w :=
  ⟨to_si_unknown_unit.1 3 "furlong" (by simp [scaleOf]),
   to_si_unknown_unit.2 "nm" (by simp [appUnitOptions]) 3⟩

/-- C10: every scale factor is strictly positive, so `to_si(·, u)` is
sign-preserving (`to_si(v,u) > 0` iff `v > 0`, `to_si(0,u) = 0`) and
strictly increasing, making each post-conversion positivity check
equivalent to the same check on the raw input value. -/
theorem to_si_scale_positive (u : String) (s : ℝ) (h : scaleOf u = some s) :
    0 < s ∧
    (∀ v, to_si v u = Except.ok (v * s)) ∧
    to_si 0 u = Except.ok 0 ∧
    (∀ v, 0 < v * s ↔ 0 < v) ∧
    ∀ v w, v < w → v * s < w * s := by
  have hs := scaleOf_pos u s h
  refine ⟨hs, fun v => by simp [to_si, h], by simp [to_si, h],
    fun v => ⟨fun hv => ?_, fun hv => mul_pos hv hs⟩,
    fun v w hvw => mul_lt_mul_of_pos_right hvw hs⟩
  nlinarith

/-- Witness for C10 at `u = "us"`. -/
theorem to_si_scale_positive_witness :
    (0 : ℝ) < 1e-6 ∧ to_si 0 "us" = Except.ok 0 ∧ (0 < (2 : ℝ) * 1e-6 ↔ (0 : ℝ) < 2) := by
  have h := to_si_scale_positive "us" 1e-6 (by simp [scaleOf])
  exact ⟨h.1, h.2.2.1, h.2.2.2.1 2⟩

/-- The exponent of line 30 is a multiple of 3, and clamping preserves that,
so the prefix dict lookup of line 33 always succeeds and agrees with the
spec's prefix assignment. -/
theorem prefixLookup_clamp (e : ℤ) (h3 : 3 ∣ e) :
    prefixLookup (clampExp e) = some (siPrefixFor (clampExp e)) := by
  have hd : 3 ∣ clampExp e := by unfold clampExp; omega
  have hlb : -15 ≤ clampExp e := by unfold clampExp; omega
  have hub : clampExp e ≤ 12 := by unfold clampExp; omega
  set c := clampExp e with hc
  clear_value c
  interval_cases c <;> first | rfl | omega

/-- C4: `format_eng` special-cases zero, NaN, and infinity by printing the
raw value and unit with no prefix scaling; `format_eng(0, "W")` renders as
the string `"0 W"`, and on NaN or infinite input `format_eng` returns
normally (never raises). -/
theorem format_eng_special :
    format_eng (.pint 0) "W" = Except.ok (.raw (.pint 0) "W") ∧
    renderRaw (.raw (.pint 0) "W") = some "0 W" ∧
    ∀ u, format_eng .pnan u = Except.ok (.raw .pnan u) ∧
      format_eng .pinf u = Except.ok (.raw .pinf u) ∧
      format_eng .pninf u = Except.ok (.raw .pninf u) := by
  exact ⟨by simp [format_eng], rfl, fun u => ⟨rfl, rfl, rfl⟩⟩

/-- C3: on a finite nonzero `x`, `format_eng` computes the exponent
`⌊log10 |x| / 3⌋ * 3`, clamps it to `[-15, 12]`, divides `x` by
`10 ^ exponent`, and outputs the scaled value (to be rendered at 4
significant digits) followed by the spec's SI prefix for that exponent and
the unit symbol. -/
theorem format_eng_general (x : ℝ) (u : String) (hx : x ≠ 0) :
    format_eng (.pfloat x) u =
      Except.ok (.eng (x / (10 : ℝ) ^ clampExp (rawExp x))
        (siPrefixFor (clampExp (rawExp x))) u) ∧
    rawExp x = ⌊Real.logb 10 |x| / 3⌋ * 3 ∧
    clampExp (rawExp x) = max (min (rawExp x) 12) (-15) := by
  refine ⟨?_, rfl, rfl⟩
  have h3 : (3 : ℤ) ∣ rawExp x := dvd_mul_left 3 _
  simp only [format_eng, if_neg hx, engFinite, prefixLookup_clamp _ h3]

/-- Witness for C3 at `x = 1`, `u = "W"`: the exponent is 0 and the prefix
empty. -/
theorem format_eng_general_witness :
    (1 : ℝ) ≠ 0 ∧ format_eng (.pfloat 1) "W" = Except.ok (.eng 1 "" "W") := by
  refine ⟨one_ne_zero, ?_⟩
  have h := (format_eng_general 1 "W" one_ne_zero).1
  have he : rawExp (1 : ℝ) = 0 := by
    simp [rawExp, Real.logb_one]
  rw [h, he]
  norm_num [clampExp, siPrefixFor]

/-- C9: in the pulse-energy mode, validation depends only on the repetition
rate: for every `P ≥ 0`, the mode errors exactly when `f ≤ 0`, succeeds with
`E = P / f` when `f > 0`, and accepts `P = 0` yielding `E = 0`. -/
theorem pulse_energy_spec (P f : ℝ) (hP : 0 ≤ P) :
    (pulseEnergy P f = Except.error repRateMsg ↔ f ≤ 0) ∧
    (0 < f → pulseEnergy P f = Except.ok (P / f)) ∧
    (0 < f → pulseEnergy 0 f = Except.ok 0) := by
  unfold pulseEnergy
  refine ⟨⟨fun h => ?_, fun h => by simp [h]⟩,
    fun h => by simp [not_le.mpr h], fun h => by simp [not_le.mpr h]⟩
  by_contra hf
  simp [hf] at h

/-- Witness for C9 at `P = 1`, `f = 2`. -/
theorem pulse_energy_spec_witness :
    (0 : ℝ) ≤ 1 ∧ pulseEnergy 1 2 = Except.ok (1 / 2) :=
  ⟨by norm_num, (pulse_energy_spec 1 2 (by norm_num)).2.1 (by norm_num)⟩

/-- C1: in the grating solve-for-θ_m branch with `N > 0`, the code computes
`d = 1/N` and `s = mλ/d − sin θ_i`; it reports the no-real-solution error
exactly when `s` lies outside `[-1, 1]`, and otherwise succeeds with
`θ_m = arcsin s`; moreover `s = mλN − sin θ_i`. -/
theorem grating_thetaM_spec (lam thetaI N : ℝ) (m : ℤ) (hN : 0 < N) :
    (gratingSolveThetaM lam thetaI m N = Except.error noRealMsg ↔
      ((m : ℝ) * lam / (1 / N) - Real.sin thetaI < -1 ∨
        1 < (m : ℝ) * lam / (1 / N) - Real.sin thetaI)) ∧
    (-1 ≤ (m : ℝ) * lam / (1 / N) - Real.sin thetaI →
      (m : ℝ) * lam / (1 / N) - Real.sin thetaI ≤ 1 →
      gratingSolveThetaM lam thetaI m N =
        Except.ok (Real.arcsin ((m : ℝ) * lam / (1 / N) - Real.sin thetaI))) ∧
    (m : ℝ) * lam / (1 / N) - Real.sin thetaI =
      (m : ℝ) * lam * N - Real.sin thetaI := by
  simp only [gratingSolveThetaM]
  rw [if_neg (not_le.mpr hN)]
  refine ⟨⟨fun h => ?_, fun h => by rw [if_pos h]⟩,
    fun h1 h2 => ?_, by rw [one_div, div_inv_eq_mul]⟩
  · by_contra hc
    rw [if_neg hc] at h
    simp at h
  · have hc : ¬((m : ℝ) * lam / (1 / N) - Real.sin thetaI < -1 ∨
        1 < (m : ℝ) * lam / (1 / N) - Real.sin thetaI) := by
      push_neg
      exact ⟨h1, h2⟩
    rw [if_neg hc]

/-- Witness for C1: the spec's no-solution example, λ = 532 nm, θ_i = 0,
N = 1.2e6 lines per meter, m = 2, where `s ≈ 1.277 > 1`. -/
theorem grating_thetaM_spec_witness :
    (0 : ℝ) < 1.2e6 ∧
    gratingSolveThetaM 532e-9 0 2 1.2e6 = Except.error noRealMsg := by
  refine ⟨by norm_num, ?_⟩
  refine (grating_thetaM_spec 532e-9 0 1.2e6 2 (by norm_num)).1.mpr (Or.inr ?_)
  rw [Real.sin_zero]
  norm_num

/-- C2: in the grating solve-for-N branch, the code errors exactly when
`|sin θ_i + sin θ_m| < 1e-15`; otherwise it computes
`d = mλ/(sin θ_i + sin θ_m)`, errors exactly when `d ≤ 0`, and otherwise
succeeds with `N = 1/d` lines per meter, scaled by `1e-3` when the output
unit is lines/mm. -/
theorem grating_lineDensity_spec (lam thetaI thetaM : ℝ) (m : ℤ) (b : Bool) :
    (gratingSolveN lam thetaI thetaM m b = Except.error denomMsg ↔
      |Real.sin thetaI + Real.sin thetaM| < 1e-15) ∧
    (1e-15 ≤ |Real.sin thetaI + Real.sin thetaM| →
      (gratingSolveN lam thetaI thetaM m b = Except.error nonPhysMsg ↔
        (m : ℝ) * lam / (Real.sin thetaI + Real.sin thetaM) ≤ 0)) ∧
    (1e-15 ≤ |Real.sin thetaI + Real.sin thetaM| →
      0 < (m : ℝ) * lam / (Real.sin thetaI + Real.sin thetaM) →
      gratingSolveN lam thetaI thetaM m b =
        Except.ok (if b
          then 1 / ((m : ℝ) * lam / (Real.sin thetaI + Real.sin thetaM)) * 1e-3
          else 1 / ((m : ℝ) * lam / (Real.sin thetaI + Real.sin thetaM)))) := by
  simp only [gratingSolveN]
  refine ⟨⟨fun h => ?_, fun h => by rw [if_pos h]⟩, fun h => ?_, fun h hd => ?_⟩
  · by_contra hc
    rw [if_neg hc] at h
    split at h <;> simp_all [denomMsg, nonPhysMsg]
  · rw [if_neg (not_lt.mpr h)]
    constructor
    · intro he
      by_contra hd
      rw [if_neg hd] at he
      simp at he
    · intro hd
      rw [if_pos hd]
  · rw [if_neg (not_lt.mpr h), if_neg (not_le.mpr hd)]
    have hmul : ∀ y : ℝ, y / 1e3 = y * 1e-3 := fun y => by
      rw [div_eq_mul_inv]
      norm_num
    cases b <;> simp [hmul]

/-- Witness for C2 at λ = 1, θ_i = 0, θ_m = π/2, m = 1, lines/m output:
the denominator is 1, d = 1 > 0, and N = 1 line per meter. -/
theorem grating_lineDensity_spec_witness :
    gratingSolveN 1 0 (Real.pi / 2) 1 false = Except.ok 1 := by
  have hs : Real.sin 0 + Real.sin (Real.pi / 2) = 1 := by
    rw [Real.sin_zero, Real.sin_pi_div_two]
    norm_num
  have h := (grating_lineDensity_spec 1 0 (Real.pi / 2) 1 false).2.2
    (by rw [hs]; norm_num) (by rw [hs]; norm_num)
  rw [h]
  simp [hs]

/-- C5 counterexample: at λ = 0, θ_i = 0, N = 1 the max-order branch does
not reject the non-positive wavelength with a domain error; it reports
success with `|m|max = 0`. -/
theorem grating_maxOrder_counterexample :
    gratingMaxOrder 0 0 1 = Except.ok 0 := by
  norm_num [gratingMaxOrder]

/-- C5 amended: for every λ, θ_i and `N > 0`, the max-order branch succeeds;
when `λ > 0` it reports `⌊d (1 + |sin θ_i|) / λ⌋` with `d = 1/N`, and when
`λ ≤ 0` it reports 0 instead of a domain error. -/
theorem grating_maxOrder_amended (lam thetaI N : ℝ) (hN : 0 < N) :
    gratingMaxOrder lam thetaI N =
      Except.ok (if 0 < lam
        then ⌊1 / N * (1 + |Real.sin thetaI|) / lam⌋ else 0) := by
  simp only [gratingMaxOrder]
  rw [if_neg (not_le.mpr hN)]

/-- Witness for the amended C5 at λ = 1, θ_i = 0, N = 1: reports
`⌊1 * (1 + 0) / 1⌋ = 1`. -/
theorem grating_maxOrder_amended_witness :
    (0 : ℝ) < 1 ∧ gratingMaxOrder 1 0 1 = Except.ok 1 := by
  refine ⟨one_pos, ?_⟩
  rw [grating_maxOrder_amended 1 0 1 one_pos]
  norm_num [Real.sin_zero]

/-- C8: in the optical-delay mode with `n ≥ 1`, the length-to-delay
direction returns `nΔL/c` (single pass) or `2nΔL/c` (double pass) with
`c = 299 792 458` exactly, the delay-to-length direction returns `cΔt/n` or
`cΔt/(2n)`, and the two directions are mutual inverses in either pass
mode. -/
theorem optical_delay_spec (n dt dL : ℝ) (b : Bool) (hn : 1 ≤ n) :
    lengthToDelay n dL false = n * dL / C0 ∧
    lengthToDelay n dL true = 2 * n * dL / C0 ∧
    delayToLength n dt false = C0 * dt / n ∧
    delayToLength n dt true = C0 * dt / (2 * n) ∧
    C0 = 299792458 ∧
    lengthToDelay n (delayToLength n dt b) b = dt ∧
    delayToLength n (lengthToDelay n dL b) b = dL := by
  have hn0 : n ≠ 0 := by linarith
  have hC : C0 ≠ 0 := by norm_num [C0]
  refine ⟨rfl, rfl, rfl, rfl, rfl, ?_, ?_⟩ <;>
    cases b <;> simp only [lengthToDelay, delayToLength, if_true, if_false] <;>
    field_simp

/-- Witness for C8 at `n = 1`, `Δt = 1`, `ΔL = 2`, single pass. -/
theorem optical_delay_spec_witness :
    (1 : ℝ) ≤ 1 ∧ lengthToDelay 1 (delayToLength 1 1 false) false = 1 :=
  ⟨le_refl 1, (optical_delay_spec 1 1 2 false le_rfl).2.2.2.2.2.1⟩

end OpticsCalc
